import Mathlib

/-!
A shallow embedding of the `login-url-generator` repository, covering the
two pipelines the specification describes:

* the generation pipeline of `generate_urls.py` (reconciliation filter,
  account-name normalization, per-record URL generation loop, CSV sink), and
* the upload pipeline of `upload_urls_to_snowflake.py`
  (`read_and_filter_csv`, `create_table`, `truncate_table`,
  `batch_insert_rows`, `main`).

Remote database calls are modelled as oracles / injected failures, CSV files
as a header plus a list of records, and Python dictionaries produced by
`csv.DictReader` as association lists whose values are either a string or
Python `None` (`Option String`).  Python string helpers (`upper`, `in`,
`startswith`, slicing) are modelled character-wise, with ASCII case
semantics for `upper`.
-/

namespace LoginUrlGen

/-- Upper-cases an ASCII lower-case letter, leaving every other character
unchanged.  Models Python's `str.upper` per character (restricted to ASCII,
which covers every string manipulated by the scripts). -/
def pyCharUpper (c : Char) : Char :=
  if 'a' ≤ c ∧ c ≤ 'z' then Char.ofNat (c.toNat - 32) else c

/-- Models Python's `s.upper()` on ASCII strings. -/
def pyUpper (s : String) : String := ⟨s.data.map pyCharUpper⟩

/-- Models the Python expression `needle in hay` on strings: `true` exactly
when `needle` occurs as a contiguous substring of `hay`. -/
def hasSubstr (needle : List Char) : List Char → Bool
  | [] => needle.isEmpty
  | c :: t => needle.isPrefixOf (c :: t) || hasSubstr needle t

/-- Models `'ERROR' in s.upper()` from `read_and_filter_csv`
(`upload_urls_to_snowflake.py`, line 43). -/
def containsErrorCI (s : String) : Bool :=
  hasSubstr "ERROR".data (pyUpper s).data

/-- Models Python's `s.startswith(p)` (character-wise). -/
def pyStartsWith (s p : String) : Bool := p.data.isPrefixOf s.data

/-- A Python dictionary with string keys, as built by `csv.DictReader`: the
value of a field is either a string or Python `None` (for fields missing
from a short data row, which `DictReader` fills with its `restval = None`). -/
abbrev PyDict := List (String × Option String)

/-- Dictionary lookup: `none` when the key is absent, otherwise the stored
value (which itself may be Python `None`).  For duplicate keys the last
binding wins, as for repeated assignment into a Python `dict`. -/
def pyDictGet (d : PyDict) (k : String) : Option (Option String) :=
  (d.reverse.find? (fun p => p.1 == k)).map (fun p => p.2)

/-- Models Python's `row.get(k, dflt)`: the stored value when the key is
present (possibly `None`), the default otherwise. -/
def pyGetDefault (d : PyDict) (k : String) (dflt : Option String) : Option String :=
  match pyDictGet d k with
  | some v => v
  | none => dflt

/-- Models the truthiness test `not row.get('account_name')` from
`read_and_filter_csv` (line 48): true when the key is absent, holds Python
`None`, or holds the empty string. -/
def acctFalsy (d : PyDict) : Bool :=
  match pyGetDefault d "account_name" none with
  | none => true
  | some s => s == ""

/-- The dictionary `csv.DictReader` builds for one data row: header fields
are zipped with the row's values; fields beyond the row's length get
`restval = None`; values beyond the header's length go to `restkey` and are
ignored by the scripts. -/
def dictOfRow (fns : List String) (row : List String) : PyDict :=
  fns.zip (row.map some ++ List.replicate (fns.length - row.length) none)

/-- A CSV file: the header line (DictReader's `fieldnames`) and the data
rows, each a list of string fields. -/
structure CsvFile where
  fieldnames : List String
  rows : List (List String)
deriving DecidableEq

/-- The Python exceptions that can surface in the upload pipeline. -/
inductive PyErr where
  /-- Python `FileNotFoundError` raised by `read_and_filter_csv` (line 29). -/
  | fileNotFoundError
  /-- Python `AttributeError` from calling `.upper()` on Python `None`. -/
  | attributeError
  /-- Python `KeyError` from `row[k]` on a missing key. -/
  | keyError
  /-- failure of `SnowflakeConnection.connect`. -/
  | connectionError
  /-- failure of a SQL statement or of `cursor.executemany`. -/
  | statementError
deriving DecidableEq

/-- The row-classification loop of `read_and_filter_csv`
(`upload_urls_to_snowflake.py`, lines 38-52), iterating over
`csv.DictReader(f)`.  `DictReader` skips blank rows, so records with no
fields are not counted.  For each remaining row it increments
`total_count`, takes `row.get('classic_ui_url', '')` — raising
`AttributeError` when that value is Python `None`, since the code then
calls `.upper()` on it — rejects rows whose URL contains `ERROR`
case-insensitively, rejects rows with a falsy `account_name` or empty URL,
and otherwise appends the row to `filtered_rows`. -/
def read_loop (fns : List String) : List (List String) → Except PyErr (List PyDict × Nat × Nat)
  | [] => .ok ([], 0, 0)
  | r :: rest =>
    if r.isEmpty then read_loop fns rest
    else
      let row := dictOfRow fns r
      match pyGetDefault row "classic_ui_url" (some "") with
      | none => .error .attributeError
      | some classic_ui_url =>
        match read_loop fns rest with
        | .error e => .error e
        | .ok (vs, total_count, error_count) =>
          if containsErrorCI classic_ui_url then
            .ok (vs, total_count + 1, error_count + 1)
          else if acctFalsy row || classic_ui_url == "" then
            .ok (vs, total_count + 1, error_count + 1)
          else
            .ok (row :: vs, total_count + 1, error_count)

/-- Models `read_and_filter_csv` (`upload_urls_to_snowflake.py`, lines
18-54).  The file argument is `none` when the file does not exist, in which
case the function raises `FileNotFoundError`; otherwise the rows are
classified by `read_loop` and the function returns
`(filtered_rows, total_count, error_count)`. -/
def read_and_filter_csv (file : Option CsvFile) : Except PyErr (List PyDict × Nat × Nat) :=
  match file with
  | none => .error .fileNotFoundError
  | some f => read_loop f.fieldnames f.rows

/-- A record returned by the Snowhouse directory query in
`generate_urls.py` (lines 65-76).  The unused `SNOWFLAKE_REGION` column is
omitted; `CLASSIC_UI_URL` is the region parameter the query aliases under
that name. -/
structure SrcRow where
  ACCOUNT_NAME : String
  DEPLOYMENT : String
  CLASSIC_UI_URL : String
deriving DecidableEq

/-- One row written to the output CSV by the generation loop. -/
structure OutRow where
  account_name : String
  deployment : String
  classic_ui_url : String
deriving DecidableEq

/-- Models lines 144-146 of `generate_urls.py`:
`if account_name.startswith('\\\\'): account_name = account_name[2:]` —
the two-character literal-backslash prefix is dropped when present. -/
def normalizeAccountName (name : String) : String :=
  if pyStartsWith name "\\\\" then ⟨name.data.drop 2⟩ else name

/-- Models the processed-accounts filter of `generate_urls.py`
(lines 84-89): when the check is not skipped and the processed set is
non-empty, keep the rows whose raw `ACCOUNT_NAME` is not in the set
(a list comprehension); otherwise keep all rows. -/
def filterProcessed (skip_processed_check : Bool) (processed_accounts : List String)
    (all_results : List SrcRow) : List SrcRow :=
  if !skip_processed_check && !processed_accounts.isEmpty then
    all_results.filter (fun row => !(processed_accounts.contains row.ACCOUNT_NAME))
  else
    all_results

/-- One iteration of the URL-generation loop (`generate_urls.py`, lines
142-177).  The remote call `SYSTEM$GET_GLOBAL_ACCOUNT_CLASSIC_UI_URL`
(query execution plus extraction of the scalar from the result row) is the
oracle `remote`, taking the normalized account name and the region
parameter; any exception it raises is its stringified message.  On success
the row `(account_name, deployment, url)` is written to the CSV and
`processed_count` is incremented; on failure the same row is written with
`classic_ui_url = "ERROR: " + message` and the counter is incremented all
the same — the loop then continues with the next record. -/
def urlGenStep (remote : String → String → Except String String)
    (acc : List OutRow × Nat) (row : SrcRow) : List OutRow × Nat :=
  let account_name := normalizeAccountName row.ACCOUNT_NAME
  let deployment := row.DEPLOYMENT
  let classic_ui_url := row.CLASSIC_UI_URL
  match remote account_name classic_ui_url with
  | .ok url => (acc.1 ++ [⟨account_name, deployment, url⟩], acc.2 + 1)
  | .error e => (acc.1 ++ [⟨account_name, deployment, "ERROR: " ++ e⟩], acc.2 + 1)

/-- The URL-generation loop: the list of CSV rows written (in order) and
the final `processed_count`. -/
def generateUrls (remote : String → String → Except String String)
    (results : List SrcRow) : List OutRow × Nat :=
  results.foldl (urlGenStep remote) ([], 0)

/-- The field names of the output CSV (`generate_urls.py`, line 132). -/
def csv_fieldnames : List String := ["account_name", "deployment", "classic_ui_url"]

/-- Models the CSV sink (`csv.DictWriter`): a header line followed by one
three-field row per `OutRow`, in order. -/
def writeCsvFile (out_rows : List OutRow) : CsvFile :=
  { fieldnames := csv_fieldnames,
    rows := out_rows.map (fun r => [r.account_name, r.deployment, r.classic_ui_url]) }

/-- The observable operations the upload pipeline performs against the
Snowflake session, in execution order. -/
inductive Op where
  /-- Models `sf.connect()`. -/
  | connect
  /-- Models `sf.execute_query(sql)` with `fetch=True`. -/
  | query (sql : String)
  /-- Models `sf.execute_query(sql, fetch=False)`. -/
  | exec (sql : String)
  /-- Models `sf.cursor.executemany(sql, data)` — the statement text and the
  batch data travel separately (parameterized insert). -/
  | executemany (sql : String) (data : List (Option String × Option String × Option String))
  /-- Models `sf.close()`. -/
  | close
  /-- the mismatch warning printed at lines 213-214. -/
  | warn
deriving DecidableEq

/-- Identifies the remote step of the upload pipeline that an injected
failure makes raise. -/
inductive StepId where
  | connectS
  | checkS
  | createS
  | truncateS
  | insertS (batchIdx : Nat)
  | countS
deriving DecidableEq

/-- The environment of one upload run: which remote step (if any) raises,
and the value the verification `COUNT(*)` query returns. -/
structure Env where
  failAt : Option StepId
  countResult : Nat

/-- Constant `DATABASE` from `upload_urls_to_snowflake.py`, line 13. -/
def DATABASE : String := "temp"

/-- Constant `SCHEMA` from `upload_urls_to_snowflake.py`, line 14. -/
def SCHEMA : String := "echung2"

/-- Constant `BATCH_SIZE` from `upload_urls_to_snowflake.py`, line 15. -/
def BATCH_SIZE : Nat := 1000

/-- The `CREATE TABLE IF NOT EXISTS` statement built in `create_table`
(lines 67-73). -/
def create_query (database schema table : String) : String :=
  "\n    CREATE TABLE IF NOT EXISTS " ++ database ++ "." ++ schema ++ "." ++ table ++
    " (\n        account_name VARCHAR(256),\n        deployment VARCHAR(256),\n" ++
    "        classic_ui_url VARCHAR(512)\n    )\n    "

/-- The `TRUNCATE TABLE` statement built in `truncate_table` (line 90). -/
def truncate_query (database schema table : String) : String :=
  "TRUNCATE TABLE " ++ database ++ "." ++ schema ++ "." ++ table

/-- The parameterized `INSERT` statement built in `batch_insert_rows`
(lines 121-125); the row values are never interpolated into it — they are
passed to `executemany` separately. -/
def insert_query (database schema table : String) : String :=
  "\n        INSERT INTO " ++ database ++ "." ++ schema ++ "." ++ table ++
    " \n        (account_name, deployment, classic_ui_url)\n" ++
    "        VALUES (%s, %s, %s)\n        "

/-- The verification query built in `main` (line 202). -/
def verify_query (database schema table : String) : String :=
  "SELECT COUNT(*) as count FROM " ++ database ++ "." ++ schema ++ "." ++ table

/-- The connection self-check query run by `main` (line 186). -/
def check_query : String := "SELECT CURRENT_DATABASE(), CURRENT_SCHEMA(), CURRENT_USER()"

/-- Models the tuple construction
`(row['account_name'], row['deployment'], row['classic_ui_url'])` from
`batch_insert_rows` (lines 128-131): a `KeyError` when a key is absent,
otherwise the three stored values (each possibly Python `None`). -/
def rowTuple (row : PyDict) : Except PyErr (Option String × Option String × Option String) :=
  match pyDictGet row "account_name", pyDictGet row "deployment",
      pyDictGet row "classic_ui_url" with
  | some a, some d, some u => .ok (a, d, u)
  | _, _, _ => .error .keyError

/-- True when all three column keys are present in the row dictionary, so
that `rowTuple` cannot raise. -/
def hasRowKeys (row : PyDict) : Bool :=
  (pyDictGet row "account_name").isSome && (pyDictGet row "deployment").isSome &&
    (pyDictGet row "classic_ui_url").isSome

/-- The values `rowTuple` extracts when all keys are present. -/
def tripleOf (row : PyDict) : Option String × Option String × Option String :=
  ((pyDictGet row "account_name").getD none, (pyDictGet row "deployment").getD none,
    (pyDictGet row "classic_ui_url").getD none)

/-- Models the list comprehension building `batch_data` (lines 128-131):
the rows are converted left to right, and the first `KeyError` (if any)
propagates. -/
def listRowTuples :
    List PyDict → Except PyErr (List (Option String × Option String × Option String))
  | [] => .ok []
  | d :: t =>
    match rowTuple d with
    | .error pe => .error pe
    | .ok x =>
      match listRowTuples t with
      | .error pe => .error pe
      | .ok xs => .ok (x :: xs)

/-- The batch-insert loop of `batch_insert_rows` (lines 117-137):
`for i in range(0, total_rows, batch_size)` takes the slice
`rows[i:i+batch_size]`, builds its tuple list, and runs one `executemany`
per slice, accumulating `total_inserted += len(batch)`.  `i` is the current
slice start and `batchIdx` counts the iterations so that a failure can be
injected into a specific `executemany`.  Returns the operations performed
and either `total_inserted` or the first exception. -/
def batch_insert_loop (e : Env) (database schema table : String) (rows : List PyDict)
    (batch_size : Nat) (i : Nat) (batchIdx : Nat) :
    List Op × Except PyErr Nat :=
  if _h : i < rows.length ∧ 0 < batch_size then
    let batch := (rows.drop i).take batch_size
    match listRowTuples batch with
    | .error pe => ([], .error pe)
    | .ok batch_data =>
      if e.failAt == some (.insertS batchIdx) then ([], .error .statementError)
      else
        let rest := batch_insert_loop e database schema table rows batch_size
          (i + batch_size) (batchIdx + 1)
        (Op.executemany (insert_query database schema table) batch_data :: rest.1,
          match rest.2 with
          | .ok n => .ok (batch.length + n)
          | .error pe => .error pe)
  else ([], .ok 0)
termination_by rows.length - i
decreasing_by omega

/-- Models `batch_insert_rows` (lines 97-139). -/
def batch_insert_rows (e : Env) (database schema table : String) (rows : List PyDict)
    (batch_size : Nat) : List Op × Except PyErr Nat :=
  batch_insert_loop e database schema table rows batch_size 0 0

/-- The `try`/`except`/`finally` body of `main` from the connection onwards
(lines 181-222): connect, self-check query, `create_table`,
`truncate_table`, `batch_insert_rows`, verification count, and the
mismatch warning; any exception raised after a successful `connect` makes
the trace end with `close` (the `finally` block) and is re-raised.  When
`connect` itself fails no session exists, so `sf.close()` closes nothing. -/
def uploadBody (e : Env) (table : String) (filtered_rows : List PyDict) :
    List Op × Except PyErr Unit :=
  if e.failAt == some .connectS then ([], .error .connectionError)
  else
    let t1 := [Op.connect]
    if e.failAt == some .checkS then (t1 ++ [Op.close], .error .statementError)
    else
      let t2 := t1 ++ [Op.query check_query]
      if e.failAt == some .createS then (t2 ++ [Op.close], .error .statementError)
      else
        let t3 := t2 ++ [Op.exec (create_query DATABASE SCHEMA table)]
        if e.failAt == some .truncateS then (t3 ++ [Op.close], .error .statementError)
        else
          let t4 := t3 ++ [Op.exec (truncate_query DATABASE SCHEMA table)]
          match batch_insert_rows e DATABASE SCHEMA table filtered_rows BATCH_SIZE with
          | (ops, .error pe) => (t4 ++ ops ++ [Op.close], .error pe)
          | (ops, .ok inserted_count) =>
            let t5 := t4 ++ ops
            if e.failAt == some .countS then (t5 ++ [Op.close], .error .statementError)
            else
              let t6 := t5 ++ [Op.query (verify_query DATABASE SCHEMA table)]
              let actual_count := e.countResult
              let t7 := t6 ++ (if inserted_count ≠ actual_count then [Op.warn] else [])
              (t7 ++ [Op.close], .ok ())

/-- Models `main` from `upload_urls_to_snowflake.py` (lines 142-222): any
exception raised by `read_and_filter_csv` — `FileNotFoundError` or any
other — is caught, a message is printed, and the function returns cleanly
before a connection object is even constructed; an empty filtered-row list
also returns cleanly; otherwise the connected body runs. -/
def main (e : Env) (csv_file : Option CsvFile) (table : String) :
    List Op × Except PyErr Unit :=
  match read_and_filter_csv csv_file with
  | .error _ => ([], .ok ())
  | .ok (filtered_rows, _total_count, _error_count) =>
    if filtered_rows.isEmpty then ([], .ok ())
    else uploadBody e table filtered_rows

/-! ## Theorems -/

/-- Unfolding of the URL-generation fold: starting from any accumulator it
appends one output row per input record, in order, and adds the record
count. -/
theorem urlGen_foldl (remote : String → String → Except String String)
    (l : List SrcRow) : ∀ acc : List OutRow × Nat,
    l.foldl (urlGenStep remote) acc =
      (acc.1 ++ l.map (fun row =>
        match remote (normalizeAccountName row.ACCOUNT_NAME) row.CLASSIC_UI_URL with
        | .ok url =>
          OutRow.mk (normalizeAccountName row.ACCOUNT_NAME) row.DEPLOYMENT url
        | .error e =>
          OutRow.mk (normalizeAccountName row.ACCOUNT_NAME) row.DEPLOYMENT ("ERROR: " ++ e)),
        acc.2 + l.length) := by
  induction l with
  | nil => intro acc; simp
  | cons r t ih =>
    intro acc
    rw [List.foldl_cons, ih]
    cases h : remote (normalizeAccountName r.ACCOUNT_NAME) r.CLASSIC_UI_URL with
    | ok url =>
      simp [urlGenStep, h, List.append_assoc]
      omega
    | error e =>
      simp [urlGenStep, h, List.append_assoc]
      omega

/-- C1: for every input record set of size N, the URL-generation loop
writes exactly N rows to the CSV sink, in input order; a successful remote
call yields its scalar as the `classic_ui_url` field, a failed one yields
`"ERROR: " ++ message` for the same record, and the loop never aborts: the
written row list and the processed count are total functions of the input,
whatever the per-record outcomes are. -/
theorem urlGenerator_one_row_per_record
    (remote : String → String → Except String String) (results : List SrcRow) :
    (writeCsvFile (generateUrls remote results).1).rows.length = results.length ∧
    (generateUrls remote results).1 = results.map (fun row =>
      match remote (normalizeAccountName row.ACCOUNT_NAME) row.CLASSIC_UI_URL with
      | .ok url =>
        OutRow.mk (normalizeAccountName row.ACCOUNT_NAME) row.DEPLOYMENT url
      | .error e =>
        OutRow.mk (normalizeAccountName row.ACCOUNT_NAME) row.DEPLOYMENT ("ERROR: " ++ e)) ∧
    (generateUrls remote results).2 = results.length := by
  have h := urlGen_foldl remote results ([], 0)
  unfold generateUrls
  rw [h]
  simp [writeCsvFile]

/-- C9: normalization strips the two-character backslash prefix exactly
once — everything after the first two characters survives, including
further backslashes — and leaves names without the prefix unchanged. -/
theorem normalize_strips_two_char_escape_once :
    (∀ rest : String, normalizeAccountName ("\\\\" ++ rest) = rest) ∧
    (∀ name : String, pyStartsWith name "\\\\" = false → normalizeAccountName name = name) := by
  constructor
  · intro rest
    have h : ("\\\\" ++ rest).data = '\\' :: '\\' :: rest.data := by
      rw [String.data_append]; rfl
    simp only [normalizeAccountName, pyStartsWith, h]
    simp [List.isPrefixOf]
  · intro name hn
    simp [normalizeAccountName, hn]

/-- Witness for C9: the prefixed name `\\\\b` normalizes to `\\b` (later
backslashes preserved), and `abc` is unchanged. -/
theorem normalize_strips_two_char_escape_once_witness :
    normalizeAccountName ("\\\\" ++ "\\\\b") = "\\\\b" ∧
      normalizeAccountName "abc" = "abc" :=
  ⟨normalize_strips_two_char_escape_once.1 "\\\\b",
    normalize_strips_two_char_escape_once.2 "abc" (by decide)⟩

/-- Counterexample for C4: the record named `\\A` (escape prefix plus `A`)
is kept by the processed-accounts filter even though its normalized name
`A` is in the prior-processed set — the membership test at line 85 of
`generate_urls.py` runs on the raw name, before the prefix strip at lines
144-146, contradicting the claim that the strip precedes the
reconciliation key. -/
theorem reconciliation_key_not_normalized_counterexample :
    filterProcessed false ["A"] [⟨"\\\\A", "d1", "r1"⟩] = [⟨"\\\\A", "d1", "r1"⟩] ∧
    normalizeAccountName "\\\\A" = "A" ∧
    (["A"] : List String).contains (normalizeAccountName "\\\\A") = true :=
  ⟨by decide, by decide, by decide⟩

/-- C4 (amended): the two-character escape prefix is stripped from the
account name before it is used as the final record key written to the
output CSV (and as the remote-call parameter), but the reconciliation
membership test uses the raw account name exactly as emitted by the
directory source. -/
theorem strip_before_record_key_not_before_reconciliation
    (P : List String) (R : List SrcRow)
    (remote : String → String → Except String String) :
    filterProcessed false P R = R.filter (fun r => !(P.contains r.ACCOUNT_NAME)) ∧
    (generateUrls remote R).1.map OutRow.account_name
      = R.map (fun r => normalizeAccountName r.ACCOUNT_NAME) := by
  constructor
  · cases P <;> simp [filterProcessed]
  · have h := urlGen_foldl remote R ([], 0)
    unfold generateUrls
    rw [h]
    simp only [List.nil_append, List.map_map]
    apply List.map_congr_left
    intro row _
    simp only [Function.comp_apply]
    cases h : remote (normalizeAccountName row.ACCOUNT_NAME) row.CLASSIC_UI_URL <;>
      simp [h]

/-- C5: with the skip flag clear the Reconciler returns exactly the
order-preserving sublist of records whose raw key is not in the
prior-processed set (a pure `List.filter`, so neither input is modified),
and with the flag set or an empty set it returns the input unchanged. -/
theorem reconciler_pure_filter (skip : Bool) (P : List String) (R : List SrcRow) :
    (skip = false →
      filterProcessed skip P R = R.filter (fun r => !(P.contains r.ACCOUNT_NAME))) ∧
    ((skip = true ∨ P = []) → filterProcessed skip P R = R) := by
  constructor
  · rintro rfl
    cases P <;> simp [filterProcessed]
  · rintro (rfl | rfl) <;> simp [filterProcessed]

/-- Witness for C5: a two-record run where one key is already processed,
and a skipped run that keeps everything. -/
theorem reconciler_pure_filter_witness :
    filterProcessed false ["A"] [⟨"A", "d", "r"⟩, ⟨"B", "d", "r"⟩]
        = [(⟨"A", "d", "r"⟩ : SrcRow), ⟨"B", "d", "r"⟩].filter
            (fun r => !((["A"] : List String).contains r.ACCOUNT_NAME)) ∧
    filterProcessed true ["A"] [⟨"A", "d", "r"⟩] = [⟨"A", "d", "r"⟩] :=
  ⟨(reconciler_pure_filter false ["A"] _).1 rfl,
    (reconciler_pure_filter true ["A"] _).2 (Or.inl rfl)⟩

/-- Each classified (non-blank) row increments `total_count` exactly once
and lands either in `filtered_rows` or in `error_count`, never both. -/
theorem read_loop_count (fns : List String) (rows : List (List String)) :
    ∀ vs t ec, read_loop fns rows = .ok (vs, t, ec) → t = vs.length + ec := by
  induction rows with
  | nil =>
    intro vs t ec h
    simp only [read_loop, Except.ok.injEq, Prod.mk.injEq] at h
    obtain ⟨rfl, rfl, rfl⟩ := h
    rfl
  | cons r rest ih =>
    intro vs t ec h
    by_cases hr : r.isEmpty
    · simp only [read_loop, hr, if_true] at h
      exact ih _ _ _ h
    · cases hu : pyGetDefault (dictOfRow fns r) "classic_ui_url" (some "") with
      | none => simp [read_loop, hr, hu] at h
      | some url =>
        cases hrec : read_loop fns rest with
        | error e => simp [read_loop, hr, hu, hrec] at h
        | ok triple =>
          obtain ⟨vs', t', ec'⟩ := triple
          have ht' := ih vs' t' ec' hrec
          by_cases hc : containsErrorCI url
          · simp [read_loop, hr, hu, hrec, hc] at h
            obtain ⟨rfl, rfl, rfl⟩ := h
            omega
          · by_cases ha : (acctFalsy (dictOfRow fns r) || url == "") = true
            · simp [read_loop, hr, hu, hrec, hc, ha] at h
              obtain ⟨rfl, rfl, rfl⟩ := h
              omega
            · simp [read_loop, hr, hu, hrec, hc, ha] at h
              obtain ⟨rfl, rfl, rfl⟩ := h
              simp only [List.length_cons]
              omega

/-- C10: whenever `read_and_filter_csv` returns a triple, the total count
is the number of valid rows plus the rejected count — each classified data
row is counted exactly once and lands in exactly one of the two buckets. -/
theorem read_filter_count_invariant (file : Option CsvFile)
    (vs : List PyDict) (t ec : Nat)
    (h : read_and_filter_csv file = .ok (vs, t, ec)) : t = vs.length + ec := by
  cases file with
  | none => simp [read_and_filter_csv] at h
  | some f => exact read_loop_count f.fieldnames f.rows vs t ec h

/-- Witness for C10 at the three-row scenario file: 3 = 2 + 1. -/
theorem read_filter_count_invariant_witness :
    (3 : Nat) = ([dictOfRow csv_fieldnames ["A", "d1", "url1"],
      dictOfRow csv_fieldnames ["C", "", "url3"]] : List PyDict).length + 1 :=
  read_filter_count_invariant
    (some ⟨csv_fieldnames, [["A", "d1", "url1"], ["B", "d2", "ERROR: x"], ["C", "", "url3"]]⟩)
    [dictOfRow csv_fieldnames ["A", "d1", "url1"], dictOfRow csv_fieldnames ["C", "", "url3"]]
    3 1 rfl

/-- C2 failing input: a CSV file that exists, with the standard header and
the single short data row `A`.  `csv.DictReader` fills the missing
`classic_ui_url` field with its `restval` of Python `None`, so
`row.get('classic_ui_url', '')` returns `None` and `None.upper()` raises
`AttributeError` — the function raises even though the file exists,
instead of rejecting the malformed row as both the spec and the code's own
`.get(..., '')` default intend. -/
theorem read_filter_raises_on_short_row :
    read_and_filter_csv (some ⟨csv_fieldnames, [["A"]]⟩) = .error .attributeError := rfl

/-- Counterexample for C3: on the scenario file the filter actually keeps
two rows — the row `(C, <empty deployment>, url3)` is *not* rejected,
because `read_and_filter_csv` never inspects the `deployment` field — so
the result is `([rowA, rowC], 3, 1)`, not `([rowA], 3, 2)` as claimed. -/
theorem upload_filter_scenario_counterexample :
    read_and_filter_csv
        (some ⟨csv_fieldnames, [["A", "d1", "url1"], ["B", "d2", "ERROR: x"], ["C", "", "url3"]]⟩)
      = .ok ([dictOfRow csv_fieldnames ["A", "d1", "url1"],
              dictOfRow csv_fieldnames ["C", "", "url3"]], 3, 1) ∧
    (Except.ok ([dictOfRow csv_fieldnames ["A", "d1", "url1"],
        dictOfRow csv_fieldnames ["C", "", "url3"]], 3, 1) :
        Except PyErr (List PyDict × Nat × Nat))
      ≠ .ok ([dictOfRow csv_fieldnames ["A", "d1", "url1"]], 3, 2) := by
  refine ⟨rfl, ?_⟩
  simp

/-- C3 (amended): on the scenario file the upload filter returns the two
valid rows `(A, d1, url1)` and `(C, "", url3)` in order, with
`total_count = 3` and `rejected_count = 1`; only the `ERROR: x` row is
rejected. -/
theorem upload_filter_scenario_actual :
    read_and_filter_csv
        (some ⟨csv_fieldnames, [["A", "d1", "url1"], ["B", "d2", "ERROR: x"], ["C", "", "url3"]]⟩)
      = .ok ([dictOfRow csv_fieldnames ["A", "d1", "url1"],
              dictOfRow csv_fieldnames ["C", "", "url3"]], 3, 1) := rfl

/-- Counterexample for C8: the single record `(a, d, error)` satisfies the
claim's precondition — every field is non-empty and no field contains the
literal (case-sensitive) substring `ERROR` — yet writing it to CSV and
reading it back classifies it as rejected, not valid, because the read
filter upper-cases the URL before the substring test. -/
theorem roundtrip_counterexample :
    ("a" : String) ≠ "" ∧ ("d" : String) ≠ "" ∧ ("error" : String) ≠ "" ∧
    hasSubstr "ERROR".data ("a" : String).data = false ∧
    hasSubstr "ERROR".data ("d" : String).data = false ∧
    hasSubstr "ERROR".data ("error" : String).data = false ∧
    read_and_filter_csv (some (writeCsvFile [⟨"a", "d", "error"⟩])) = .ok ([], 1, 1) := by
  refine ⟨?_, ?_, ?_, ?_, ?_, ?_, rfl⟩ <;> decide

/-- The read filter accepts every row written by the CSV sink, provided
each record's fields are non-empty and none contains `ERROR` in any letter
case. -/
theorem read_loop_writeCsv (rows : List OutRow)
    (h : ∀ r ∈ rows,
      r.account_name ≠ "" ∧ r.deployment ≠ "" ∧ r.classic_ui_url ≠ "" ∧
      containsErrorCI r.account_name = false ∧ containsErrorCI r.deployment = false ∧
      containsErrorCI r.classic_ui_url = false) :
    read_loop csv_fieldnames
        (rows.map (fun r => [r.account_name, r.deployment, r.classic_ui_url]))
      = .ok (rows.map (fun r =>
          dictOfRow csv_fieldnames [r.account_name, r.deployment, r.classic_ui_url]),
          rows.length, 0) := by
  induction rows with
  | nil => rfl
  | cons r t ih =>
    obtain ⟨ha, hd, hu, hca, hcd, hcu⟩ := h r (List.mem_cons_self r t)
    have ih' := ih (fun x hx => h x (List.mem_cons_of_mem r hx))
    have hget : pyGetDefault
        (dictOfRow csv_fieldnames [r.account_name, r.deployment, r.classic_ui_url])
        "classic_ui_url" (some "") = some r.classic_ui_url := rfl
    have hacc : acctFalsy
        (dictOfRow csv_fieldnames [r.account_name, r.deployment, r.classic_ui_url])
        = (r.account_name == "") := rfl
    have ha' : (r.account_name == "") = false := beq_eq_false_iff_ne.mpr ha
    have hu' : (r.classic_ui_url == "") = false := beq_eq_false_iff_ne.mpr hu
    simp [read_loop, hget, ih', hcu, hacc, ha', hu', List.length_cons]

/-- C8 (amended): round-trip — writing N processed records to the CSV sink
and reading the file back through the upload filter yields all N rows as
valid (in order), with `total_count = N` and `rejected_count = 0`, under
the precondition that every field of every record is non-empty and no
field contains the substring `ERROR` in any letter case. -/
theorem roundtrip_all_valid (rows : List OutRow)
    (h : ∀ r ∈ rows,
      r.account_name ≠ "" ∧ r.deployment ≠ "" ∧ r.classic_ui_url ≠ "" ∧
      containsErrorCI r.account_name = false ∧ containsErrorCI r.deployment = false ∧
      containsErrorCI r.classic_ui_url = false) :
    read_and_filter_csv (some (writeCsvFile rows))
      = .ok (rows.map (fun r =>
          dictOfRow csv_fieldnames [r.account_name, r.deployment, r.classic_ui_url]),
          rows.length, 0) :=
  read_loop_writeCsv rows h

/-- Witness for C8 (amended) at one clean record. -/
theorem roundtrip_all_valid_witness :
    read_and_filter_csv (some (writeCsvFile [⟨"acct1", "dep1", "u1"⟩]))
      = .ok ([dictOfRow csv_fieldnames ["acct1", "dep1", "u1"]], 1, 0) :=
  roundtrip_all_valid [⟨"acct1", "dep1", "u1"⟩] (by decide)

/-- With all three column keys present, `rowTuple` cannot raise. -/
theorem rowTuple_eq_of_hasKeys (d : PyDict) (h : hasRowKeys d = true) :
    rowTuple d = .ok (tripleOf d) := by
  unfold hasRowKeys at h
  cases h1 : pyDictGet d "account_name" with
  | none => rw [h1] at h; simp at h
  | some a =>
    cases h2 : pyDictGet d "deployment" with
    | none => rw [h2] at h; simp at h
    | some b =>
      cases h3 : pyDictGet d "classic_ui_url" with
      | none => rw [h3] at h; simp at h
      | some c => simp [rowTuple, tripleOf, h1, h2, h3]

/-- With all keys present in every row, the batch-data comprehension is the
plain value map. -/
theorem listRowTuples_ok (l : List PyDict) (h : ∀ d ∈ l, hasRowKeys d = true) :
    listRowTuples l = .ok (l.map tripleOf) := by
  induction l with
  | nil => rfl
  | cons d t ih =>
    have hd := rowTuple_eq_of_hasKeys d (h d (List.mem_cons_self d t))
    have ht := ih (fun x hx => h x (List.mem_cons_of_mem d hx))
    simp [listRowTuples, hd, ht]

/-- A substring of the right part is a substring of an append. -/
theorem hasSubstr_append_right (n r : List Char) (h : hasSubstr n r = true) :
    ∀ l, hasSubstr n (l ++ r) = true := by
  intro l
  induction l with
  | nil => exact h
  | cons c t ih =>
    rw [List.cons_append, hasSubstr, ih]
    simp

/-- The batch-insert loop does nothing once the slice start passes the end
of the row list. -/
theorem batch_insert_loop_stop (e : Env) (database schema table : String)
    (rows : List PyDict) (batch_size : Nat) (i bi : Nat)
    (hi : ¬ i < rows.length) :
    batch_insert_loop e database schema table rows batch_size i bi = ([], .ok 0) := by
  rw [batch_insert_loop]
  rw [dif_neg]
  intro hcon
  exact hi hcon.1

/-- With no insert failure injected and all keys present, the loop from
slice start `i` performs one parameterized `executemany` per consecutive
slice of at most `batch_size` rows, covering `rows.drop i` exactly and
returning the number of rows submitted. -/
theorem batch_insert_loop_ok (e : Env) (he : ∀ j, e.failAt ≠ some (.insertS j))
    (database schema table : String) (rows : List PyDict) (batch_size : Nat)
    (hbs : 0 < batch_size) (hk : ∀ d ∈ rows, hasRowKeys d = true) :
    ∀ n i bi, rows.length - i ≤ n →
      ∃ batches : List (List PyDict),
        batch_insert_loop e database schema table rows batch_size i bi
          = (batches.map (fun b =>
              Op.executemany (insert_query database schema table) (b.map tripleOf)),
             .ok (rows.length - i))
        ∧ batches.flatten = rows.drop i
        ∧ ∀ b ∈ batches, b.length ≤ batch_size := by
  intro n
  induction n with
  | zero =>
    intro i bi hle
    have hi : ¬ i < rows.length := by omega
    refine ⟨[], ?_, ?_, by simp⟩
    · rw [batch_insert_loop_stop e database schema table rows batch_size i bi hi]
      have : rows.length - i = 0 := by omega
      simp [this]
    · rw [List.drop_eq_nil_of_le (by omega)]
      rfl
  | succ n IH =>
    intro i bi hle
    by_cases hi : i < rows.length
    · have hbatch : listRowTuples ((rows.drop i).take batch_size)
          = .ok (((rows.drop i).take batch_size).map tripleOf) := by
        apply listRowTuples_ok
        intro d hd
        exact hk d (List.drop_subset i rows (List.take_subset batch_size (rows.drop i) hd))
      have hfail : (e.failAt == some (.insertS bi)) = false :=
        beq_eq_false_iff_ne.mpr (he bi)
      obtain ⟨batches', heq', hjoin', hle'⟩ :=
        IH (i + batch_size) (bi + 1) (by omega)
      refine ⟨(rows.drop i).take batch_size :: batches', ?_, ?_, ?_⟩
      · rw [batch_insert_loop, dif_pos ⟨hi, hbs⟩]
        simp only [hbatch, hfail, Bool.false_eq_true, if_false, heq', List.map_cons,
          Prod.mk.injEq, Except.ok.injEq]
        refine ⟨trivial, ?_⟩
        simp only [List.length_take, List.length_drop, inf_eq_min, Nat.min_def]
        split <;> omega
      · rw [List.flatten_cons, hjoin']
        rw [show rows.drop (i + batch_size) = (rows.drop i).drop batch_size from by
          rw [List.drop_drop]]
        exact List.take_append_drop batch_size (rows.drop i)
      · intro b hb
        rcases List.mem_cons.mp hb with rfl | hb'
        · simp
        · exact hle' b hb'
    · refine ⟨[], ?_, ?_, by simp⟩
      · rw [batch_insert_loop_stop e database schema table rows batch_size i bi hi]
        have : rows.length - i = 0 := by omega
        simp [this]
      · rw [List.drop_eq_nil_of_le (by omega)]
        rfl

/-- When the injected failure targets the current batch index and the
slice start is still in range, the loop raises there. -/
theorem batch_insert_loop_fail_here (e : Env) (bi : Nat)
    (hf : e.failAt = some (.insertS bi)) (database schema table : String)
    (rows : List PyDict) (batch_size : Nat) (hbs : 0 < batch_size)
    (hk : ∀ d ∈ rows, hasRowKeys d = true) (i : Nat) (hi : i < rows.length) :
    (batch_insert_loop e database schema table rows batch_size i bi).2
      = .error .statementError := by
  rw [batch_insert_loop, dif_pos ⟨hi, hbs⟩]
  have hbatch : listRowTuples ((rows.drop i).take batch_size)
      = .ok (((rows.drop i).take batch_size).map tripleOf) := by
    apply listRowTuples_ok
    intro d hd
    exact hk d (List.drop_subset i rows (List.take_subset batch_size (rows.drop i) hd))
  have htrue : (e.failAt == some (.insertS bi)) = true := by
    rw [hf]; exact beq_self_eq_true _
  simp [hbatch, htrue]

/-- With a failure injected into batch `j` and at least `j` full slices
before the end of the row list, the loop raises `statementError`. -/
theorem batch_insert_loop_fails (e : Env) (j : Nat)
    (hf : e.failAt = some (.insertS j)) (database schema table : String)
    (rows : List PyDict) (batch_size : Nat) (hbs : 0 < batch_size)
    (hk : ∀ d ∈ rows, hasRowKeys d = true) :
    ∀ n bi i, j - bi ≤ n → i = bi * batch_size → bi ≤ j →
      j * batch_size < rows.length →
      (batch_insert_loop e database schema table rows batch_size i bi).2
        = .error .statementError := by
  intro n
  induction n with
  | zero =>
    intro bi i hle hieq hbij hjlen
    have hbieq : bi = j := by omega
    subst hbieq
    have hi : i < rows.length := by rw [hieq]; exact hjlen
    exact batch_insert_loop_fail_here e bi hf database schema table rows batch_size
      hbs hk i hi
  | succ n IH =>
    intro bi i hle hieq hbij hjlen
    by_cases hbj : bi = j
    · subst hbj
      have hi : i < rows.length := by rw [hieq]; exact hjlen
      exact batch_insert_loop_fail_here e bi hf database schema table rows batch_size
        hbs hk i hi
    · have hbilt : bi < j := by omega
      have hit : i < rows.length := by
        rw [hieq]
        calc bi * batch_size < j * batch_size :=
              (Nat.mul_lt_mul_right hbs).mpr hbilt
          _ < rows.length := hjlen
      have hbatch : listRowTuples ((rows.drop i).take batch_size)
          = .ok (((rows.drop i).take batch_size).map tripleOf) := by
        apply listRowTuples_ok
        intro d hd
        exact hk d (List.drop_subset i rows (List.take_subset batch_size (rows.drop i) hd))
      have hne : (e.failAt == some (.insertS bi)) = false := by
        apply beq_eq_false_iff_ne.mpr
        rw [hf]
        simp
        omega
      have hrec := IH (bi + 1) (i + batch_size) (by omega)
        (by rw [hieq, Nat.succ_mul]) (by omega) hjlen
      rw [batch_insert_loop, dif_pos ⟨hit, hbs⟩]
      simp [hbatch, hne, hrec]

/-- C6: for every non-empty list of valid rows (each supplying the three
column keys), the upload pipeline executes, in order: the `CREATE TABLE IF
NOT EXISTS` statement, the unconditional `TRUNCATE`, one parameterized
`executemany` per consecutive slice of at most `BATCH_SIZE = 1000` rows
covering the submitted rows exactly, then the `COUNT(*)` verification
query; it emits the warning — and still returns success, not an error —
exactly when the count result differs from the number of rows submitted,
and the fixed insert statement carries `%s` placeholders rather than
interpolated values. -/
theorem upload_pipeline_staged_order (table : String) (cnt : Nat) (vr : List PyDict)
    (hne : vr ≠ []) (hk : ∀ d ∈ vr, hasRowKeys d = true) :
    ∃ batches : List (List PyDict),
      uploadBody ⟨none, cnt⟩ table vr
        = ([Op.connect, Op.query check_query,
            Op.exec (create_query DATABASE SCHEMA table),
            Op.exec (truncate_query DATABASE SCHEMA table)]
            ++ batches.map (fun b =>
              Op.executemany (insert_query DATABASE SCHEMA table) (b.map tripleOf))
            ++ [Op.query (verify_query DATABASE SCHEMA table)]
            ++ (if vr.length ≠ cnt then [Op.warn] else [])
            ++ [Op.close], .ok ())
      ∧ batches.flatten = vr
      ∧ (∀ b ∈ batches, b.length ≤ BATCH_SIZE)
      ∧ hasSubstr "VALUES (%s, %s, %s)".data (insert_query DATABASE SCHEMA table).data
          = true := by
  obtain ⟨batches, heq, hjoin, hle⟩ :=
    batch_insert_loop_ok ⟨none, cnt⟩ (fun j => by simp) DATABASE SCHEMA table vr
      BATCH_SIZE (by decide) hk vr.length 0 0 (by omega)
  have hbr : batch_insert_rows ⟨none, cnt⟩ DATABASE SCHEMA table vr BATCH_SIZE
      = (batches.map (fun b =>
          Op.executemany (insert_query DATABASE SCHEMA table) (b.map tripleOf)),
         .ok vr.length) := by
    unfold batch_insert_rows
    simpa using heq
  refine ⟨batches, ?_, by simpa using hjoin, hle, ?_⟩
  · have hno : ∀ s : StepId, ((⟨none, cnt⟩ : Env).failAt == some s) = false :=
      fun s => rfl
    unfold uploadBody
    simp only [hno, Bool.false_eq_true, if_false, hbr]
    simp [List.append_assoc]
  · unfold insert_query
    rw [String.data_append]
    exact hasSubstr_append_right _ _ (by decide) _

/-- Witness for C6 at a singleton valid-row list with a matching count. -/
theorem upload_pipeline_staged_order_witness :
    ∃ batches : List (List PyDict),
      uploadBody ⟨none, 1⟩ "t1" [dictOfRow csv_fieldnames ["a", "d", "u"]]
        = ([Op.connect, Op.query check_query,
            Op.exec (create_query DATABASE SCHEMA "t1"),
            Op.exec (truncate_query DATABASE SCHEMA "t1")]
            ++ batches.map (fun b =>
              Op.executemany (insert_query DATABASE SCHEMA "t1") (b.map tripleOf))
            ++ [Op.query (verify_query DATABASE SCHEMA "t1")]
            ++ (if ([dictOfRow csv_fieldnames ["a", "d", "u"]] : List PyDict).length ≠ 1
                then [Op.warn] else [])
            ++ [Op.close], .ok ())
      ∧ batches.flatten = [dictOfRow csv_fieldnames ["a", "d", "u"]]
      ∧ (∀ b ∈ batches, b.length ≤ BATCH_SIZE)
      ∧ hasSubstr "VALUES (%s, %s, %s)".data (insert_query DATABASE SCHEMA "t1").data
          = true :=
  upload_pipeline_staged_order "t1" 1 [dictOfRow csv_fieldnames ["a", "d", "u"]]
    (by simp) (by decide)

/-- C7: a missing CSV file makes the upload `main` return cleanly — no
exception reaches the caller and no connection is opened (the trace is
empty); whereas a failure raised after the connection, during create,
truncate, any existing insert batch, or the count verification, re-raises
to the caller with the session closed last (the trace ends in `close`). -/
theorem upload_missing_file_clean_and_late_failures_cleanup :
    (∀ e tbl, main e none tbl = ([], .ok ())) ∧
    (∀ cnt tbl f vr tc ec s,
      read_and_filter_csv (some f) = .ok (vr, tc, ec) →
      vr ≠ [] →
      (∀ d ∈ vr, hasRowKeys d = true) →
      (s = .createS ∨ s = .truncateS ∨ s = .countS ∨
        ∃ j, s = .insertS j ∧ j * BATCH_SIZE < vr.length) →
      ∃ t err, main ⟨some s, cnt⟩ (some f) tbl = (t, .error err) ∧
        t.getLast? = some Op.close) := by
  constructor
  · intro e tbl
    rfl
  · intro cnt tbl f vr tc ec s hread hne hk hs
    have hmain : main ⟨some s, cnt⟩ (some f) tbl = uploadBody ⟨some s, cnt⟩ tbl vr := by
      unfold main
      rw [hread]
      cases vr with
      | nil => exact absurd rfl hne
      | cons a t => rfl
    rw [hmain]
    rcases hs with rfl | rfl | rfl | ⟨j, rfl, hj⟩
    · exact ⟨[Op.connect, Op.query check_query, Op.close], .statementError, rfl, rfl⟩
    · exact ⟨[Op.connect, Op.query check_query,
        Op.exec (create_query DATABASE SCHEMA tbl), Op.close], .statementError, rfl, rfl⟩
    · obtain ⟨batches, heq, hjoin, hle⟩ :=
        batch_insert_loop_ok ⟨some .countS, cnt⟩ (fun j => by simp) DATABASE SCHEMA tbl vr
          BATCH_SIZE (by decide) hk vr.length 0 0 (by omega)
      have hbr : batch_insert_rows ⟨some .countS, cnt⟩ DATABASE SCHEMA tbl vr BATCH_SIZE
          = (batches.map (fun b =>
              Op.executemany (insert_query DATABASE SCHEMA tbl) (b.map tripleOf)),
             .ok vr.length) := by
        unfold batch_insert_rows
        simpa using heq
      have c1 : ((⟨some StepId.countS, cnt⟩ : Env).failAt == some StepId.connectS)
          = false := rfl
      have c2 : ((⟨some StepId.countS, cnt⟩ : Env).failAt == some StepId.checkS)
          = false := rfl
      have c3 : ((⟨some StepId.countS, cnt⟩ : Env).failAt == some StepId.createS)
          = false := rfl
      have c4 : ((⟨some StepId.countS, cnt⟩ : Env).failAt == some StepId.truncateS)
          = false := rfl
      have c5 : ((⟨some StepId.countS, cnt⟩ : Env).failAt == some StepId.countS)
          = true := rfl
      refine ⟨[Op.connect, Op.query check_query,
        Op.exec (create_query DATABASE SCHEMA tbl),
        Op.exec (truncate_query DATABASE SCHEMA tbl)]
        ++ batches.map (fun b =>
            Op.executemany (insert_query DATABASE SCHEMA tbl) (b.map tripleOf))
        ++ [Op.close], .statementError, ?_, by rw [List.getLast?_concat]⟩
      unfold uploadBody
      simp only [c1, c2, c3, c4, c5, Bool.false_eq_true, if_false, if_true, hbr]
      simp [List.append_assoc]
    · have hfail2 := batch_insert_loop_fails ⟨some (.insertS j), cnt⟩ j rfl
        DATABASE SCHEMA tbl vr BATCH_SIZE (by decide) hk j 0 0 (by omega) (by simp)
        (by omega) hj
      have hpair : batch_insert_rows ⟨some (.insertS j), cnt⟩ DATABASE SCHEMA tbl vr
            BATCH_SIZE
          = ((batch_insert_rows ⟨some (.insertS j), cnt⟩ DATABASE SCHEMA tbl vr
              BATCH_SIZE).1, .error .statementError) := by
        have hself : batch_insert_rows ⟨some (.insertS j), cnt⟩ DATABASE SCHEMA tbl vr
              BATCH_SIZE
            = ((batch_insert_rows ⟨some (.insertS j), cnt⟩ DATABASE SCHEMA tbl vr
                BATCH_SIZE).1,
               (batch_insert_rows ⟨some (.insertS j), cnt⟩ DATABASE SCHEMA tbl vr
                BATCH_SIZE).2) := rfl
        rw [hself]
        have h2 : (batch_insert_rows ⟨some (.insertS j), cnt⟩ DATABASE SCHEMA tbl vr
            BATCH_SIZE).2 = .error .statementError := hfail2
        rw [h2]
      have d1 : ((⟨some (StepId.insertS j), cnt⟩ : Env).failAt == some StepId.connectS)
          = false := rfl
      have d2 : ((⟨some (StepId.insertS j), cnt⟩ : Env).failAt == some StepId.checkS)
          = false := rfl
      have d3 : ((⟨some (StepId.insertS j), cnt⟩ : Env).failAt == some StepId.createS)
          = false := rfl
      have d4 : ((⟨some (StepId.insertS j), cnt⟩ : Env).failAt == some StepId.truncateS)
          = false := rfl
      refine ⟨[Op.connect, Op.query check_query,
        Op.exec (create_query DATABASE SCHEMA tbl),
        Op.exec (truncate_query DATABASE SCHEMA tbl)]
        ++ (batch_insert_rows ⟨some (.insertS j), cnt⟩ DATABASE SCHEMA tbl vr
            BATCH_SIZE).1
        ++ [Op.close], .statementError, ?_, by rw [List.getLast?_concat]⟩
      unfold uploadBody
      rw [hpair]
      simp only [d1, d2, d3, d4, Bool.false_eq_true, if_false]
      simp [List.append_assoc]

/-- Witness for C7: the missing-file branch for one environment, and a
create-step failure on a concrete one-row file, whose trace ends with
`close` and whose result is an error. -/
theorem upload_failure_cleanup_witness :
    main ⟨some StepId.createS, 0⟩ none "t1" = ([], .ok ()) ∧
    ∃ t err, main ⟨some StepId.createS, 0⟩ (some (writeCsvFile [⟨"a", "d", "u"⟩])) "t1"
        = (t, .error err) ∧ t.getLast? = some Op.close :=
  ⟨upload_missing_file_clean_and_late_failures_cleanup.1 ⟨some StepId.createS, 0⟩ "t1",
    upload_missing_file_clean_and_late_failures_cleanup.2 0 "t1"
      (writeCsvFile [⟨"a", "d", "u"⟩])
      [dictOfRow csv_fieldnames ["a", "d", "u"]] 1 0 StepId.createS rfl
      (by simp) (by decide) (Or.inl rfl)⟩

end LoginUrlGen
